import Mathlib

/-!
Verification development for the EdgeHunter-Kernel "Silent Observer" market-data
kernel. Each section shallowly embeds one Python module of the repository
(`src/gates.py`, `src/clock.py`, `src/command_queue.py`, `src/events.py`,
`src/engine.py`, `src/datahub.py`, `src/triggercard_logger.py`,
`src/triggercard_validator.py`) as executable Lean definitions; the theorems at
the end settle the specification claims against those definitions.

Conventions of the embedding:
- Python `int` is `Int`; Python `//` (floor division) is `Int.fdiv`;
  Python `int(x / d)` (true division then truncation toward zero, used on
  nonnegative nanosecond differences) is `Int.tdiv`.
- Python `float` prices are `Rat`; `math.ceil` on a nonnegative ratio is
  `ratCeil` below.
- `None` is `Option.none`; a dataclass is a structure with the same field
  names and default values.
-/

set_option maxRecDepth 4000

/-! ## src/gates.py -/

/-- Threshold default `STALE_THRESHOLD_MS = 5000` from gates.py. -/
def STALE_THRESHOLD_MS : Int := 5000

/-- Threshold default `FEED_HEARTBEAT_TIMEOUT_MS = 10000` from gates.py. -/
def FEED_HEARTBEAT_TIMEOUT_MS : Int := 10000

/-- Threshold default `MAX_SPREAD_TICKS = 4` from gates.py. -/
def MAX_SPREAD_TICKS : Int := 4

def REASON_ARM_OFF : String := "ARM_OFF"
def REASON_INTENT_FLAT : String := "INTENT_FLAT"
def REASON_OUTSIDE_OPERATING_WINDOW : String := "OUTSIDE_OPERATING_WINDOW"
def REASON_SESSION_BREAK : String := "SESSION_BREAK"
def REASON_FEED_DISCONNECTED : String := "FEED_DISCONNECTED"
def REASON_MD_NOT_REALTIME : String := "MD_NOT_REALTIME"
def REASON_NO_CONTRACT : String := "NO_CONTRACT"
def REASON_STALE_DATA : String := "STALE_DATA"
def REASON_SPREAD_UNAVAILABLE : String := "SPREAD_UNAVAILABLE"
def REASON_SPREAD_WIDE : String := "SPREAD_WIDE"
def REASON_ENGINE_DEGRADED : String := "ENGINE_DEGRADED"

/-- `GateInputs` dataclass from gates.py (field-for-field). -/
structure GateInputs where
  arm : Bool
  intent : String
  in_operating_window : Bool
  is_break_window : Bool
  feed_connected : Bool
  md_mode : String
  con_id : Option Int
  bid : Option Rat
  ask : Option Rat
  last : Option Rat
  quote_staleness_ms : Option Int
  last_quote_event_mono_ns : Option Int
  ts_mono_ns : Int
  spread_ticks : Option Int
  engine_degraded : Bool
  stale_threshold_ms : Int := STALE_THRESHOLD_MS
  feed_heartbeat_timeout_ms : Int := FEED_HEARTBEAT_TIMEOUT_MS
  max_spread_ticks : Int := MAX_SPREAD_TICKS
  deriving Repr, DecidableEq

/-- `_check_stale_data` from gates.py: quote missing, staleness over threshold,
or heartbeat age over timeout (strict comparisons; `//` is floor division). -/
def check_stale_data (inputs : GateInputs) : Bool :=
  if inputs.bid = none ∧ inputs.ask = none ∧ inputs.last = none then
    true
  else if (match inputs.quote_staleness_ms with
           | some st => decide (st > inputs.stale_threshold_ms)
           | none => false) then
    true
  else
    match inputs.last_quote_event_mono_ns with
    | some lq => Int.fdiv (inputs.ts_mono_ns - lq) 1000000 > inputs.feed_heartbeat_timeout_ms
    | none => false

/-- Values recorded in the `gate_metrics` dict of `evaluate_hard_gates`. -/
inductive MetricValue where
  | b (v : Bool)
  | s (v : String)
  | oi (v : Option Int)
  deriving Repr, DecidableEq

/-- The reason list built by `evaluate_hard_gates` in gates.py: the sequence of
conditional appends of the eleven gates, written as a concatenation of
conditional singleton segments in the same source order. -/
def gate_reason_codes (inputs : GateInputs) : List String :=
    (if ¬ inputs.arm then [REASON_ARM_OFF] else []) ++
    (if inputs.intent = "FLAT" then [REASON_INTENT_FLAT] else []) ++
    (if ¬ inputs.in_operating_window then [REASON_OUTSIDE_OPERATING_WINDOW] else []) ++
    (if inputs.is_break_window then [REASON_SESSION_BREAK] else []) ++
    (if ¬ inputs.feed_connected then [REASON_FEED_DISCONNECTED] else []) ++
    (if inputs.md_mode ≠ "REALTIME" then [REASON_MD_NOT_REALTIME] else []) ++
    (if inputs.con_id = none then [REASON_NO_CONTRACT] else []) ++
    (if check_stale_data inputs then [REASON_STALE_DATA] else []) ++
    (if inputs.bid = none ∨ inputs.ask = none then [REASON_SPREAD_UNAVAILABLE]
     else if (match inputs.spread_ticks with
              | none => true
              | some st => st ≤ 0) then [REASON_SPREAD_UNAVAILABLE]
     else []) ++
    (if (match inputs.spread_ticks with
         | none => false
         | some st => st > 0 ∧ st > inputs.max_spread_ticks) then [REASON_SPREAD_WIDE]
     else []) ++
    (if inputs.engine_degraded then [REASON_ENGINE_DEGRADED] else [])

/-- `evaluate_hard_gates` from gates.py. Returns (allowed, reasons, metrics)
with `allowed = (len(reasons) == 0)`; the metrics dict is the list of key/value
insertions in source order. -/
def evaluate_hard_gates (inputs : GateInputs) :
    Bool × List String × List (String × MetricValue) :=
  let reasons : List String := gate_reason_codes inputs
  let metrics : List (String × MetricValue) :=
    [("arm", .b inputs.arm),
     ("intent", .s inputs.intent),
     ("in_operating_window", .b inputs.in_operating_window),
     ("is_break_window", .b inputs.is_break_window),
     ("connected", .b inputs.feed_connected),
     ("md_mode", .s inputs.md_mode),
     ("con_id", .oi inputs.con_id),
     ("staleness_ms", .oi inputs.quote_staleness_ms),
     ("last_quote_event_mono_ns", .oi inputs.last_quote_event_mono_ns),
     ("spread_ticks", .oi inputs.spread_ticks),
     ("engine_degraded", .b inputs.engine_degraded)]
  (reasons.isEmpty, reasons, metrics)

/-- The fixed gate panel order of spec section 4.2 (gates 1 through 11). -/
def GATE_TABLE_ORDER : List String :=
  [REASON_ARM_OFF, REASON_INTENT_FLAT, REASON_OUTSIDE_OPERATING_WINDOW,
   REASON_SESSION_BREAK, REASON_FEED_DISCONNECTED, REASON_MD_NOT_REALTIME,
   REASON_NO_CONTRACT, REASON_STALE_DATA, REASON_SPREAD_UNAVAILABLE,
   REASON_SPREAD_WIDE, REASON_ENGINE_DEGRADED]

/-! ## src/clock.py (SessionManager)

`SessionManager` reads only `now_local.hour` in `is_break_window`,
`in_operating_window` and `session_phase`, and `now_local.hour` plus the
calendar date in `session_date_iso`; the local-time argument is therefore
embedded as its hour (an `Int`) where only the hour matters. -/

/-- `SessionManager` construction state from clock.py (`__init__`). -/
structure SessionManager where
  operating_start_hour : Int := 7
  operating_end_hour : Int := 16
  break_start_hour : Int := 17
  break_end_hour : Int := 18
  deriving Repr, DecidableEq

/-- `SessionManager.is_break_window`: `break_start_hour <= hour < break_end_hour`. -/
def SessionManager.is_break_window (m : SessionManager) (hour : Int) : Bool :=
  m.break_start_hour ≤ hour ∧ hour < m.break_end_hour

/-- `SessionManager.in_operating_window`:
`operating_start_hour <= hour < operating_end_hour`. -/
def SessionManager.in_operating_window (m : SessionManager) (hour : Int) : Bool :=
  m.operating_start_hour ≤ hour ∧ hour < m.operating_end_hour

/-- `SessionManager.session_phase`: BREAK if in break window, else OPERATING if
in operating window, else CLOSED. -/
def SessionManager.session_phase (m : SessionManager) (hour : Int) : String :=
  if m.is_break_window hour then "BREAK"
  else if m.in_operating_window hour then "OPERATING"
  else "CLOSED"

/-- `SessionManager.session_date_iso`: tomorrow's date when
`hour >= break_start_hour`, else today's. The two candidate ISO date strings
(today, today plus one day) are passed in, abstracting Python date arithmetic. -/
def SessionManager.session_date_iso (m : SessionManager) (hour : Int)
    (date_today date_tomorrow : String) : String :=
  if hour ≥ m.break_start_hour then date_tomorrow else date_today

/-! ## src/snapshot.py -/

/-- `math.ceil` on a rational (the engine applies it to `(ask - bid) / tick_size`
with `tick_size > 0`). `q.den` is positive, so the ceiling of `q.num / q.den`
is `(q.num + q.den - 1) // q.den` in floor division. -/
def ratCeil (q : Rat) : Int :=
  Int.fdiv (q.num + (q.den : Int) - 1) (q.den : Int)

/-- `InstrumentDTO` from snapshot.py (all fields defaulted; `con_id` defaults
to `None`). `0.25` is the rational 1/4. -/
structure InstrumentDTO where
  symbol : String := "MNQ"
  contract_key : String := "MNQ.202603"
  con_id : Option Int := none
  tick_size : Rat := (1 : Rat) / 4
  deriving Repr, DecidableEq

/-- `FeedDTO` from snapshot.py. -/
structure FeedDTO where
  connected : Bool := false
  md_mode : String := "NONE"
  degraded : Bool := false
  status_reason_codes : List String := []
  last_status_change_mono_ns : Option Int := none
  deriving Repr, DecidableEq

/-- `QuoteDTO` from snapshot.py. -/
structure QuoteDTO where
  bid : Option Rat := none
  ask : Option Rat := none
  last : Option Rat := none
  bid_size : Option Int := none
  ask_size : Option Int := none
  ts_recv_unix_ms : Option Int := none
  ts_recv_mono_ns : Option Int := none
  ts_exch_unix_ms : Option Int := none
  staleness_ms : Option Int := none
  spread_ticks : Option Int := none
  deriving Repr, DecidableEq

/-- `SessionDTO` from snapshot.py. It declares exactly the three fields below;
in particular it has NO `session_phase` field (see `SessionDTO_field_names`). -/
structure SessionDTO where
  in_operating_window : Bool := false
  is_break_window : Bool := false
  session_date_iso : String := ""
  deriving Repr, DecidableEq

/-- The declared field names of the `SessionDTO` dataclass in snapshot.py. -/
def SessionDTO_field_names : List String :=
  ["in_operating_window", "is_break_window", "session_date_iso"]

/-- The keyword arguments `engine.py:_run_cycle_once` passes when it constructs
`SessionDTO(...)` (engine.py lines 218-223). -/
def engine_SessionDTO_kwargs : List String :=
  ["in_operating_window", "is_break_window", "session_date_iso", "session_phase"]

/-- A Python dataclass `__init__` call succeeds only when every keyword
argument names a declared field; an unknown keyword raises `TypeError`. -/
def dataclass_call_accepts (field_names kwargs : List String) : Bool :=
  kwargs.all (fun k => field_names.contains k)

/-- `ControlsDTO` from snapshot.py. -/
structure ControlsDTO where
  intent : String := "FLAT"
  arm : Bool := false
  last_cmd_id : Int := 0
  last_cmd_ts_unix_ms : Option Int := none
  deriving Repr, DecidableEq

/-- `LoopHealthDTO` from snapshot.py. -/
structure LoopHealthDTO where
  cycle_ms : Int := 0
  cycle_overrun : Bool := false
  engine_degraded : Bool := false
  last_cycle_start_mono_ns : Int := 0
  deriving Repr, DecidableEq

/-- `GatesDTO` from snapshot.py (`gate_metrics` as in `evaluate_hard_gates`). -/
structure GatesDTO where
  allowed : Bool := false
  reason_codes : List String := []
  gate_metrics : List (String × MetricValue) := []
  deriving Repr, DecidableEq

/-- `SnapshotDTO` from snapshot.py (schema "snapshot.v1"). -/
structure SnapshotDTO where
  schema_version : String := "snapshot.v1"
  app_version : String := ""
  config_hash : String := ""
  run_id : String := ""
  run_start_ts_unix_ms : Int := 0
  snapshot_id : Int := 0
  cycle_count : Int := 0
  ts_unix_ms : Int := 0
  ts_mono_ns : Int := 0
  instrument : InstrumentDTO := {}
  feed : FeedDTO := {}
  quote : QuoteDTO := {}
  session : SessionDTO := {}
  controls : ControlsDTO := {}
  loop : LoopHealthDTO := {}
  gates : GatesDTO := {}
  last_any_event_mono_ns : Option Int := none
  last_quote_event_mono_ns : Option Int := none
  quotes_received_count : Int := 0
  ready : Bool := false
  ready_reasons : List String := []
  deriving Repr, DecidableEq

/-! ## src/command_queue.py -/

/-- `IntentCommand` and `ArmCommand` from command_queue.py, as the tagged union
the queue holds. -/
inductive Command where
  | intentCmd (cmd_id : Int) (ts_unix_ms : Int) (intent : String)
  | armCmd (cmd_id : Int) (ts_unix_ms : Int) (arm : Bool)
  deriving Repr, DecidableEq

def Command.cmd_id : Command → Int
  | .intentCmd cid _ _ => cid
  | .armCmd cid _ _ => cid

def Command.ts_unix_ms : Command → Int
  | .intentCmd _ ts _ => ts
  | .armCmd _ ts _ => ts

/-- `CoalescedBatch` from command_queue.py. -/
structure CoalescedBatch where
  intent : Option String := none
  arm : Option Bool := none
  last_cmd_id : Int := 0
  last_cmd_ts_unix_ms : Option Int := none
  deriving Repr, DecidableEq

/-- `CommandQueue.drain` from command_queue.py: the FIFO contents are walked in
order, last-write-wins per kind, and `last_cmd_id` / `last_cmd_ts_unix_ms` are
overwritten by every command of either kind. -/
def CommandQueue.drain (commands : List Command) : CoalescedBatch :=
  commands.foldl
    (fun b cmd =>
      match cmd with
      | .intentCmd cid ts it =>
          { b with intent := some it, last_cmd_id := cid,
                   last_cmd_ts_unix_ms := some ts }
      | .armCmd cid ts a =>
          { b with arm := some a, last_cmd_id := cid,
                   last_cmd_ts_unix_ms := some ts })
    {}

/-! ## src/events.py -/

/-- `QuoteEvent` from events.py. -/
structure QuoteEvent where
  ts_recv_mono_ns : Int
  ts_recv_unix_ms : Int
  con_id : Int
  bid : Option Rat := none
  ask : Option Rat := none
  last : Option Rat := none
  bid_size : Option Int := none
  ask_size : Option Int := none
  ts_exch_unix_ms : Option Int := none
  deriving Repr, DecidableEq

/-- `StatusEvent` from events.py (`md_mode` carried as its string `.value`). -/
structure StatusEvent where
  ts_recv_mono_ns : Int
  ts_recv_unix_ms : Int
  connected : Bool
  md_mode : String
  reason : Option String := none
  error_code : Option Int := none
  deriving Repr, DecidableEq

/-- `AdapterErrorEvent` from events.py. -/
structure AdapterErrorEvent where
  ts_recv_mono_ns : Int
  ts_recv_unix_ms : Int
  error_code : Int
  error_msg : String
  request_id : Option Int := none
  deriving Repr, DecidableEq

/-- The tagged union of inbound events the engine dispatches on with
`isinstance` in `_drain_inbound_events`. -/
inductive InboundEvent where
  | quote (e : QuoteEvent)
  | status (e : StatusEvent)
  | adapterError (e : AdapterErrorEvent)
  deriving Repr, DecidableEq

/-- `event.ts_recv_mono_ns`, available on every event variant. -/
def InboundEvent.ts_recv_mono_ns : InboundEvent → Int
  | .quote e => e.ts_recv_mono_ns
  | .status e => e.ts_recv_mono_ns
  | .adapterError e => e.ts_recv_mono_ns

/-! ## src/engine.py

The mutable per-instance state of `EngineLoop` (`self._...` fields), its event
and command drains, and `_run_cycle_once` as a pure transition from engine
state and per-cycle environment to the next state plus the snapshot the cycle
assembles. The per-cycle environment (`CycleEnv`) carries the values the
cycle reads from its collaborators: the three clock observations, the drained
command list, the drained event list and the local-time session inputs.

The real `_run_cycle_once` passes a fourth keyword `session_phase` to
`SessionDTO`, which the dataclass rejects with `TypeError` before the snapshot
is constructed or published; `run_cycle_once_checked` and
`run_engine_cycles_checked` keep that error path, while `run_cycle_once`
collapses it (building the session record from the three declared fields) to
expose the computations the source completes before the raise. -/

/-- Engine-loop configuration from `EngineLoop.__init__`. -/
structure EngineConfig where
  cycle_target_ms : Int := 100
  overrun_threshold_ms : Int := 500
  deriving Repr, DecidableEq

/-- The mutable state of `EngineLoop` as first set up in `__init__`. -/
structure EngineState where
  snapshot_id : Int := 0
  intent : String := "FLAT"
  arm : Bool := false
  last_cmd_id : Int := 0
  last_cmd_ts_unix_ms : Option Int := none
  feed_connected : Bool := false
  md_mode : String := "NONE"
  feed_status_reason_codes : List String := []
  feed_last_status_change_mono_ns : Option Int := none
  quote_bid : Option Rat := none
  quote_ask : Option Rat := none
  quote_last : Option Rat := none
  quote_bid_size : Option Int := none
  quote_ask_size : Option Int := none
  quote_ts_recv_unix_ms : Option Int := none
  quote_ts_recv_mono_ns : Option Int := none
  quote_ts_exch_unix_ms : Option Int := none
  last_any_event_mono_ns : Option Int := none
  last_quote_event_mono_ns : Option Int := none
  quotes_received_count : Int := 0
  deriving Repr, DecidableEq

/-- One step of `_drain_inbound_events` (engine.py lines 255-289): the effect
of a single drained event on engine state. Note that the `QuoteEvent` branch
increments `quotes_received_count` unconditionally and never stores
`event.con_id`. -/
def apply_inbound_event (s : EngineState) (ev : InboundEvent) : EngineState :=
  let s := { s with last_any_event_mono_ns := some ev.ts_recv_mono_ns }
  match ev with
  | .quote e =>
      { s with
        last_quote_event_mono_ns := some e.ts_recv_mono_ns,
        quotes_received_count := s.quotes_received_count + 1,
        quote_bid := if e.bid ≠ none then e.bid else s.quote_bid,
        quote_ask := if e.ask ≠ none then e.ask else s.quote_ask,
        quote_last := if e.last ≠ none then e.last else s.quote_last,
        quote_bid_size := if e.bid_size ≠ none then e.bid_size else s.quote_bid_size,
        quote_ask_size := if e.ask_size ≠ none then e.ask_size else s.quote_ask_size,
        quote_ts_recv_unix_ms := some e.ts_recv_unix_ms,
        quote_ts_recv_mono_ns := some e.ts_recv_mono_ns,
        quote_ts_exch_unix_ms := e.ts_exch_unix_ms }
  | .status e =>
      let prev_connected := s.feed_connected
      let prev_md_mode := s.md_mode
      let s := { s with feed_connected := e.connected, md_mode := e.md_mode }
      let s := match e.reason with
        | some r => if r ≠ "" then { s with feed_status_reason_codes := [r] } else s
        | none => s
      if s.feed_connected ≠ prev_connected ∨ s.md_mode ≠ prev_md_mode then
        { s with feed_last_status_change_mono_ns := some e.ts_recv_mono_ns }
      else s
  | .adapterError e =>
      if e.error_msg ≠ "" then { s with feed_status_reason_codes := [e.error_msg] }
      else s

/-- `_drain_inbound_events`: fold the drained batch over the state in FIFO
order. -/
def drain_inbound_events (s : EngineState) (events : List InboundEvent) : EngineState :=
  events.foldl apply_inbound_event s

/-- `_drain_commands` (engine.py lines 291-313): apply the coalesced batch. -/
def drain_commands (s : EngineState) (commands : List Command) : EngineState :=
  let batch := CommandQueue.drain commands
  let s := match batch.intent with
    | some it => { s with intent := it }
    | none => s
  let s := match batch.arm with
    | some a => { s with arm := a }
    | none => s
  if batch.last_cmd_id > 0 then
    { s with last_cmd_id := batch.last_cmd_id,
             last_cmd_ts_unix_ms := batch.last_cmd_ts_unix_ms }
  else s

/-- The per-cycle environment read by `_run_cycle_once`: clock observations
(`now_mono_ns` at cycle start, before gates, and after gates; `now_unix_ms` at
cycle start), drained queues, and the local time for the session manager. -/
structure CycleEnv where
  mono_start_ns : Int
  unix_start_ms : Int
  commands : List Command := []
  events : List InboundEvent := []
  local_hour : Int := 0
  date_today : String := ""
  date_tomorrow : String := ""
  mono_pre_gate_ns : Int
  mono_end_ns : Int
  deriving Repr, DecidableEq

/-- The engine state after step 2 (snapshot id increment), step 3 (command
drain) and step 4 (event drain) of `_run_cycle_once`. -/
def cycle_drained_state (s0 : EngineState) (env : CycleEnv) : EngineState :=
  drain_inbound_events
    (drain_commands { s0 with snapshot_id := s0.snapshot_id + 1 } env.commands)
    env.events

/-- The staleness computation of `_run_cycle_once` (engine.py lines 137-141):
`max(0, (cycle_start_mono_ns - ts_recv_mono_ns) // 1_000_000)` when a quote
receipt timestamp exists. -/
def cycle_quote_staleness_ms (s3 : EngineState) (env : CycleEnv) : Option Int :=
  match s3.quote_ts_recv_mono_ns with
  | some t => some (max 0 (Int.fdiv (env.mono_start_ns - t) 1000000))
  | none => none

/-- The spread computation of `_run_cycle_once` (engine.py lines 143-150):
`ceil((ask - bid) / InstrumentDTO().tick_size)` when bid and ask exist and
`ask > bid`. -/
def cycle_spread_ticks (s3 : EngineState) : Option Int :=
  match s3.quote_bid, s3.quote_ask with
  | some bid, some ask =>
      if ask > bid then some (ratCeil ((ask - bid) / ({} : InstrumentDTO).tick_size))
      else none
  | _, _ => none

/-- `engine_degraded` as computed before gate evaluation (engine.py lines
160-163): the pre-gate elapsed milliseconds exceed the overrun threshold. -/
def cycle_engine_degraded (cfg : EngineConfig) (env : CycleEnv) : Bool :=
  Int.tdiv (env.mono_pre_gate_ns - env.mono_start_ns) 1000000 > cfg.overrun_threshold_ms

/-- The `GateInputs` record `_run_cycle_once` builds (engine.py lines 165-181).
`con_id` is read off a fresh default `InstrumentDTO()`. -/
def cycle_gate_inputs (cfg : EngineConfig) (mgr : SessionManager)
    (s3 : EngineState) (env : CycleEnv) : GateInputs :=
  { arm := s3.arm
    intent := s3.intent
    in_operating_window := mgr.in_operating_window env.local_hour
    is_break_window := mgr.is_break_window env.local_hour
    feed_connected := s3.feed_connected
    md_mode := s3.md_mode
    con_id := ({} : InstrumentDTO).con_id
    bid := s3.quote_bid
    ask := s3.quote_ask
    last := s3.quote_last
    quote_staleness_ms := cycle_quote_staleness_ms s3 env
    last_quote_event_mono_ns := s3.last_quote_event_mono_ns
    ts_mono_ns := env.mono_start_ns
    spread_ticks := cycle_spread_ticks s3
    engine_degraded := cycle_engine_degraded cfg env }

/-- `_run_cycle_once` (engine.py lines 119-249) with the `TypeError` of the
`SessionDTO(..., session_phase=...)` call collapsed: a pure transition
returning the engine state after the drains together with the snapshot value
the cycle computes for `datahub.publish`. In the source that construction
raises before any snapshot exists, so nothing is ever published; the error
path is modeled by `run_cycle_once_checked` below, and this collapsed form
serves only the claims about computations the source completes before the
raise (drained state, gate inputs, reason codes). `int(x / 1_000_000)` on the
elapsed-time measurements is truncating division. -/
def run_cycle_once (cfg : EngineConfig) (mgr : SessionManager) (run_id : String)
    (run_start_ts_unix_ms : Int) (s0 : EngineState) (env : CycleEnv) :
    EngineState × SnapshotDTO :=
  let s3 := cycle_drained_state s0 env
  let session_date_iso := mgr.session_date_iso env.local_hour env.date_today env.date_tomorrow
  let in_operating := mgr.in_operating_window env.local_hour
  let is_break := mgr.is_break_window env.local_hour
  let quote_staleness_ms : Option Int := cycle_quote_staleness_ms s3 env
  let spread_ticks : Option Int := cycle_spread_ticks s3
  let feed_degraded := (¬ s3.feed_connected) ∨ (s3.md_mode ≠ "REALTIME")
  let feed_reasons : List String :=
    (if ¬ s3.feed_connected then ["FEED_DISCONNECTED"] else []) ++
    (if s3.md_mode ≠ "REALTIME" then ["MD_NOT_REALTIME"] else [])
  let engine_degraded := cycle_engine_degraded cfg env
  let gate_inputs : GateInputs := cycle_gate_inputs cfg mgr s3 env
  let gatesOut := evaluate_hard_gates gate_inputs
  let allowed := gatesOut.1
  let reasons := gatesOut.2.1
  let gate_metrics := gatesOut.2.2
  let cycle_elapsed_ms := Int.tdiv (env.mono_end_ns - env.mono_start_ns) 1000000
  let cycle_overrun := cycle_elapsed_ms > cfg.cycle_target_ms
  let snapshot : SnapshotDTO :=
    { schema_version := "snapshot.v1"
      run_id := run_id
      run_start_ts_unix_ms := run_start_ts_unix_ms
      snapshot_id := s3.snapshot_id
      cycle_count := s3.snapshot_id
      ts_unix_ms := env.unix_start_ms
      ts_mono_ns := env.mono_start_ns
      instrument := {}
      feed :=
        { connected := s3.feed_connected
          md_mode := s3.md_mode
          degraded := feed_degraded
          status_reason_codes :=
            if feed_reasons ≠ [] then feed_reasons else s3.feed_status_reason_codes
          last_status_change_mono_ns := s3.feed_last_status_change_mono_ns }
      quote :=
        { bid := s3.quote_bid
          ask := s3.quote_ask
          last := s3.quote_last
          bid_size := s3.quote_bid_size
          ask_size := s3.quote_ask_size
          ts_recv_unix_ms := s3.quote_ts_recv_unix_ms
          ts_recv_mono_ns := s3.quote_ts_recv_mono_ns
          ts_exch_unix_ms := s3.quote_ts_exch_unix_ms
          staleness_ms := quote_staleness_ms
          spread_ticks := spread_ticks }
      session :=
        { in_operating_window := in_operating
          is_break_window := is_break
          session_date_iso := session_date_iso }
      controls :=
        { intent := s3.intent
          arm := s3.arm
          last_cmd_id := s3.last_cmd_id
          last_cmd_ts_unix_ms := s3.last_cmd_ts_unix_ms }
      loop :=
        { cycle_ms := cycle_elapsed_ms
          cycle_overrun := cycle_overrun
          engine_degraded := engine_degraded
          last_cycle_start_mono_ns := env.mono_start_ns }
      gates :=
        { allowed := allowed
          reason_codes := reasons
          gate_metrics := gate_metrics }
      last_any_event_mono_ns := s3.last_any_event_mono_ns
      last_quote_event_mono_ns := s3.last_quote_event_mono_ns
      quotes_received_count := s3.quotes_received_count
      ready := allowed
      ready_reasons := reasons }
  (s3, snapshot)

/-! ## src/datahub.py -/

/-- `DataHub`: the held latest snapshot (`None` before the first publish). -/
structure DataHub where
  snapshot : Option SnapshotDTO := none
  deriving Repr, DecidableEq

/-- `DataHub.publish`: replace the current snapshot. -/
def DataHub.publish (_hub : DataHub) (snapshot : SnapshotDTO) : DataHub :=
  { snapshot := some snapshot }

/-- `DataHub.get_latest`. -/
def DataHub.get_latest (hub : DataHub) : Option SnapshotDTO :=
  hub.snapshot

/-- `_run_cycle_once` with its error path kept. The snapshot construction at
engine.py:218-223 evaluates `SessionDTO(in_operating_window=...,
is_break_window=..., session_date_iso=..., session_phase=...)` as an argument
of the `SnapshotDTO(...)` call; a Python dataclass rejects an undeclared
keyword, so the construction succeeds only when
`dataclass_call_accepts SessionDTO_field_names engine_SessionDTO_kwargs`
holds, and otherwise raises `TypeError` before any `SnapshotDTO` exists and
before `datahub.publish` (line 248). The drains earlier in the cycle have
already mutated the instance, so the state outcome is `cycle_drained_state`
either way. -/
def run_cycle_once_checked (cfg : EngineConfig) (mgr : SessionManager)
    (run_id : String) (run_start_ts_unix_ms : Int) (s0 : EngineState)
    (env : CycleEnv) : EngineState × Except String SnapshotDTO :=
  if dataclass_call_accepts SessionDTO_field_names engine_SessionDTO_kwargs then
    ((run_cycle_once cfg mgr run_id run_start_ts_unix_ms s0 env).1,
     .ok (run_cycle_once cfg mgr run_id run_start_ts_unix_ms s0 env).2)
  else
    (cycle_drained_state s0 env,
     .error "TypeError: unexpected keyword argument session_phase")

/-- A run of consecutive engine cycles with the error path kept: `_run_loop`
(engine.py lines 104-117) calls `_run_cycle_once` with no exception handler,
so an exception raised inside a cycle propagates and ends the engine thread —
that cycle publishes nothing and no further cycle runs. The trace collects, in
order, the snapshots that reach `datahub.publish`. -/
def run_engine_cycles_checked (cfg : EngineConfig) (mgr : SessionManager)
    (run_id : String) (run_start_ts_unix_ms : Int) :
    EngineState → List CycleEnv → EngineState × List SnapshotDTO
  | s, [] => (s, [])
  | s, env :: rest =>
      match run_cycle_once_checked cfg mgr run_id run_start_ts_unix_ms s env with
      | (s2, .ok snap) =>
          let tail := run_engine_cycles_checked cfg mgr run_id run_start_ts_unix_ms s2 rest
          (tail.1, snap :: tail.2)
      | (s2, .error _) => (s2, [])

/-! ## src/triggercard_logger.py

The logger's file I/O (rotation, JSONL write, fsync) has no bearing on the
emission-cadence claims; the embedding keeps the cadence state
(`cadence_interval_ns`, `_last_emit_mono_ns`) and models `tick` as returning
the card it emits, if any. -/

/-- `TriggerCard` DTO from triggercard_logger.py (schema "triggercard.v1"). -/
structure TriggerCard where
  schema_version : String := "triggercard.v1"
  run_id : String := ""
  ts_unix_ms : Int := 0
  snapshot_id : Int := 0
  ready : Bool := false
  ready_reasons : List String := []
  deriving Repr, DecidableEq

/-- The cadence-control state of `TriggerCardLogger` (`__init__`):
`cadence_interval_ns = int(1_000_000_000 / cadence_hz)` and no prior emit. -/
structure LoggerState where
  run_id : String
  cadence_interval_ns : Int
  last_emit_mono_ns : Option Int := none
  deriving Repr, DecidableEq

/-- `TriggerCardLogger._should_emit`: first emit always allowed, then
`now_mono_ns - last_emit_mono_ns >= cadence_interval_ns`. -/
def LoggerState.should_emit (st : LoggerState) (now_mono_ns : Int) : Bool :=
  match st.last_emit_mono_ns with
  | none => true
  | some t => now_mono_ns - t ≥ st.cadence_interval_ns

/-- `TriggerCardLogger.tick`: returns the updated cadence state and the card
emitted this tick, if any. A tick whose cadence check fails, or whose snapshot
argument is `None`, leaves `last_emit_mono_ns` unchanged; on emit the card is
built from the snapshot and `last_emit_mono_ns := now_mono_ns`. -/
def LoggerState.tick (st : LoggerState) (now_mono_ns : Int)
    (snapshot : Option SnapshotDTO) : LoggerState × Option TriggerCard :=
  if ¬ st.should_emit now_mono_ns then (st, none)
  else
    match snapshot with
    | none => (st, none)
    | some snap =>
        let card : TriggerCard :=
          { schema_version := "triggercard.v1"
            run_id := st.run_id
            ts_unix_ms := snap.ts_unix_ms
            snapshot_id := snap.snapshot_id
            ready := snap.ready
            ready_reasons := snap.ready_reasons }
        ({ st with last_emit_mono_ns := some now_mono_ns }, some card)

/-- A sequence of `tick` calls; returns the final state and the emitted cards
paired with the `now_mono_ns` at which each was emitted, in order. -/
def LoggerState.run_ticks (st : LoggerState) :
    List (Int × Option SnapshotDTO) → LoggerState × List (Int × TriggerCard)
  | [] => (st, [])
  | (now, snap) :: rest =>
      let step := st.tick now snap
      let tail := step.1.run_ticks rest
      match step.2 with
      | some card => (tail.1, (now, card) :: tail.2)
      | none => tail

/-! ## src/triggercard_validator.py

`validate_triggercard_file` is embedded over the list of lines read from the
file (the existing-file path; the file-not-found early return is not needed by
any claim). `json.loads` is embedded as a recursive-descent reader of the JSON
subset the TriggerCards log uses: objects, arrays, strings (with single-char
escapes), integers, booleans and null; a line that Python would fail to decode
in this subset fails here (`none`). A non-object top-level JSON value makes
the Python validator raise `TypeError` at the `in` test; that uncaught
exception is the `none` result of `run_validator`. Duplicate object keys keep
the last binding, as `json.loads` does. -/

inductive Json where
  | null
  | bool (b : Bool)
  | num (n : Int)
  | str (s : String)
  | arr (elems : List Json)
  | obj (members : List (String × Json))
  deriving Repr

/-- Whitespace skipping used by the JSON reader and by `str.strip`. -/
def skipWs : List Char → List Char
  | c :: cs => if c = ' ' ∨ c = '\t' ∨ c = '\n' ∨ c = '\r' then skipWs cs else c :: cs
  | [] => []

/-- Python `str.strip()` on both ends. -/
def pyStrip (s : String) : String :=
  String.mk ((skipWs (skipWs s.data).reverse).reverse)

def unescapeChar (c : Char) : Char :=
  if c = 'n' then '\n'
  else if c = 't' then '\t'
  else if c = 'r' then '\r'
  else c

/-- Read a JSON string body up to the closing quote (the opening quote has
already been consumed); returns the content and the remaining input. -/
def readStringBody (fuel : Nat) (l : List Char) : Option (List Char × List Char) :=
  match fuel, l with
  | 0, _ => none
  | _, [] => none
  | fuel + 1, c :: cs =>
    if c = '"' then some ([], cs)
    else if c = '\\' then
      match cs with
      | [] => none
      | e :: cs2 =>
          match readStringBody fuel cs2 with
          | some (content, rest) => some (unescapeChar e :: content, rest)
          | none => none
    else
      match readStringBody fuel cs with
      | some (content, rest) => some (c :: content, rest)
      | none => none

/-- Split leading decimal digits from the input. -/
def takeDigits : List Char → List Char × List Char
  | [] => ([], [])
  | c :: cs =>
      if c.isDigit then
        let split := takeDigits cs
        (c :: split.1, split.2)
      else ([], c :: cs)

def digitsToNat (ds : List Char) : Nat :=
  ds.foldl (fun n c => n * 10 + (c.toNat - 48)) 0

mutual

/-- Read one JSON value (the integer/boolean/null/string/array/object subset). -/
def readJsonValue : Nat → List Char → Option (Json × List Char)
  | 0, _ => none
  | fuel + 1, l =>
    match skipWs l with
    | [] => none
    | c :: cs =>
      if c = '"' then
        match readStringBody (cs.length + 1) cs with
        | some (content, rest) => some (.str (String.mk content), rest)
        | none => none
      else if c = '\x7b' then
        match skipWs cs with
        | c2 :: cs2 =>
            if c2 = '\x7d' then some (.obj [], cs2)
            else
              match readJsonMembers fuel (c2 :: cs2) with
              | some (members, rest) => some (.obj members, rest)
              | none => none
        | [] => none
      else if c = '[' then
        match skipWs cs with
        | c2 :: cs2 =>
            if c2 = ']' then some (.arr [], cs2)
            else
              match readJsonElems fuel (c2 :: cs2) with
              | some (elems, rest) => some (.arr elems, rest)
              | none => none
        | [] => none
      else if c = 't' then
        match cs with
        | 'r' :: 'u' :: 'e' :: rest => some (.bool true, rest)
        | _ => none
      else if c = 'f' then
        match cs with
        | 'a' :: 'l' :: 's' :: 'e' :: rest => some (.bool false, rest)
        | _ => none
      else if c = 'n' then
        match cs with
        | 'u' :: 'l' :: 'l' :: rest => some (.null, rest)
        | _ => none
      else if c = '-' then
        match takeDigits cs with
        | ([], _) => none
        | (ds, rest) => some (.num (-(digitsToNat ds : Int)), rest)
      else if c.isDigit then
        match takeDigits (c :: cs) with
        | (ds, rest) => some (.num (digitsToNat ds : Int), rest)
      else none

/-- Read the members of a JSON object after its opening brace (first member
starts at the input head); consumes the closing brace. -/
def readJsonMembers : Nat → List Char → Option (List (String × Json) × List Char)
  | 0, _ => none
  | fuel + 1, l =>
    match skipWs l with
    | '"' :: cs =>
        match readStringBody (cs.length + 1) cs with
        | some (key, afterKey) =>
            match skipWs afterKey with
            | ':' :: afterColon =>
                match readJsonValue fuel afterColon with
                | some (v, afterValue) =>
                    match skipWs afterValue with
                    | ',' :: afterComma =>
                        match readJsonMembers fuel afterComma with
                        | some (members, rest) =>
                            some ((String.mk key, v) :: members, rest)
                        | none => none
                    | c :: rest =>
                        if c = '\x7d' then some ([(String.mk key, v)], rest)
                        else none
                    | [] => none
                | none => none
            | _ => none
        | none => none
    | _ => none

/-- Read the elements of a JSON array after its opening bracket (first element
starts at the input head); consumes the closing bracket. -/
def readJsonElems : Nat → List Char → Option (List Json × List Char)
  | 0, _ => none
  | fuel + 1, l =>
      match readJsonValue fuel l with
      | some (v, afterValue) =>
          match skipWs afterValue with
          | ',' :: afterComma =>
              match readJsonElems fuel afterComma with
              | some (elems, rest) => some (v :: elems, rest)
              | none => none
          | ']' :: rest => some ([v], rest)
          | _ => none
      | none => none

end

/-- `json.loads` on one line: one JSON value followed only by whitespace. -/
def json_loads (s : String) : Option Json :=
  match readJsonValue (s.length + 1) s.data with
  | some (v, rest) => if skipWs rest = [] then some v else none
  | none => none

/-- Last-wins key lookup on a JSON object's members (as `json.loads` builds its
dict); `none` when the key is absent. -/
def jsonMemberLookup (members : List (String × Json)) (k : String) : Option Json :=
  members.foldl (fun acc m => if m.1 = k then some m.2 else acc) none

/-- The required TriggerCard fields checked by the validator. -/
def REQUIRED_TRIGGERCARD_FIELDS : List String :=
  ["run_id", "ts_unix_ms", "snapshot_id", "ready", "ready_reasons"]

/-- The error entries the validator appends; each models the Python f-string
message for that line (the message text carries the same data). -/
inductive LineError where
  | missingSchemaVersion (line : Nat)
  | invalidSchemaVersion (line : Nat)
  | missingRequiredFields (line : Nat) (missing : List String)
  | jsonDecodeError (line : Nat)
  deriving Repr, DecidableEq

/-- The loop state of `validate_triggercard_file` before `success` is computed. -/
structure VState where
  valid_count : Nat := 0
  has_truncated_line : Bool := false
  truncated_line_content : Option String := none
  errors : List LineError := []
  deriving Repr, DecidableEq

/-- `ValidationResult` from triggercard_validator.py. -/
structure ValidationResult where
  valid_count : Nat
  has_truncated_line : Bool
  truncated_line_content : Option String
  errors : List LineError
  success : Bool
  deriving Repr, DecidableEq

/-- One iteration of the validator loop on the 1-based line `i` of a file of
`total` lines. A decode failure on the last line sets the truncated flag and
adds no error; on any earlier line it appends a decode error. `none` models the
uncaught `TypeError` Python raises when the decoded value is not a dict. -/
def process_validator_line (total : Nat) (i : Nat) (raw : String) (st : VState) :
    Option VState :=
  let line := pyStrip raw
  if line = "" then some st
  else
    match json_loads line with
    | none =>
        if i = total then
          some { st with has_truncated_line := true,
                         truncated_line_content := some line }
        else
          some { st with errors := st.errors ++ [.jsonDecodeError i] }
    | some (.obj members) =>
        match jsonMemberLookup members "schema_version" with
        | none => some { st with errors := st.errors ++ [.missingSchemaVersion i] }
        | some sv =>
            if (match sv with
                | .str s => decide (s ≠ "triggercard.v1")
                | _ => true) then
              some { st with errors := st.errors ++ [.invalidSchemaVersion i] }
            else
              let missing := REQUIRED_TRIGGERCARD_FIELDS.filter
                (fun f => (jsonMemberLookup members f).isNone)
              if missing ≠ [] then
                some { st with errors := st.errors ++ [.missingRequiredFields i missing] }
              else
                some { st with valid_count := st.valid_count + 1 }
    | some _ => none

/-- The validator loop from line `i` (1-based) over the remaining lines. -/
def run_validator (total : Nat) : Nat → List String → VState → Option VState
  | _, [], st => some st
  | i, l :: rest, st =>
      match process_validator_line total i l st with
      | some st2 => run_validator total (i + 1) rest st2
      | none => none

/-- `validate_triggercard_file` over the file's lines;
`success = (len(errors) == 0)`. -/
def validate_triggercard_file (lines : List String) : Option ValidationResult :=
  (run_validator lines.length 1 lines {}).map fun st =>
    { valid_count := st.valid_count
      has_truncated_line := st.has_truncated_line
      truncated_line_content := st.truncated_line_content
      errors := st.errors
      success := st.errors.isEmpty }

/-! ## Concrete test vectors

Inputs used by the concrete parts of the claims: the all-fail gate vector of
spec section 8 scenario 1, the contract-only quote of
tests/test_contract_and_staleness.py, the command sequence of scenario 4, the
crash-tail file of scenario 6, and small cycle/tick environments. -/

/-- Spec scenario 1 (all-fail): arm off, FLAT, outside window, in break,
disconnected, DELAYED, no contract, no prices, no spread, engine degraded.
The cycle-start monotonic time is irrelevant (no quote event was seen). -/
def all_fail_inputs (ts_mono_ns : Int) : GateInputs :=
  { arm := false
    intent := "FLAT"
    in_operating_window := false
    is_break_window := true
    feed_connected := false
    md_mode := "DELAYED"
    con_id := none
    bid := none
    ask := none
    last := none
    quote_staleness_ms := none
    last_quote_event_mono_ns := none
    ts_mono_ns := ts_mono_ns
    spread_ticks := none
    engine_degraded := true }

/-- The expected reason list for `all_fail_inputs` (spec scenario 1). -/
def ALL_FAIL_REASONS : List String :=
  [REASON_ARM_OFF, REASON_INTENT_FLAT, REASON_OUTSIDE_OPERATING_WINDOW,
   REASON_SESSION_BREAK, REASON_FEED_DISCONNECTED, REASON_MD_NOT_REALTIME,
   REASON_NO_CONTRACT, REASON_STALE_DATA, REASON_SPREAD_UNAVAILABLE,
   REASON_ENGINE_DEGRADED]

/-- A contract-only `QuoteEvent` (con_id present, every price field null), as
pushed by `test_contract_only_quote_does_not_update_staleness`. -/
def contract_only_quote : QuoteEvent :=
  { ts_recv_mono_ns := 900000000
    ts_recv_unix_ms := 1699999999000
    con_id := 123456 }

/-- A cycle environment that drains exactly the contract-only quote. -/
def contract_only_env : CycleEnv :=
  { mono_start_ns := 1000000000
    unix_start_ms := 1700000000000
    events := [.quote contract_only_quote]
    local_hour := 10
    date_today := "2026-03-16"
    date_tomorrow := "2026-03-17"
    mono_pre_gate_ns := 1000100000
    mono_end_ns := 1000200000 }

/-- Gate inputs in which every gate passes except the operating-window gate,
whose input is computed by the default `SessionManager` at local hour 16 — the
operating-window END hour. -/
def hour16_boundary_inputs : GateInputs :=
  { arm := true
    intent := "LONG"
    in_operating_window := SessionManager.in_operating_window {} 16
    is_break_window := SessionManager.is_break_window {} 16
    feed_connected := true
    md_mode := "REALTIME"
    con_id := some 12345
    bid := some 18500
    ask := some (18500 + (1 : Rat) / 4)
    last := some 18500
    quote_staleness_ms := some 100
    last_quote_event_mono_ns := some 900000000
    ts_mono_ns := 1000000000
    spread_ticks := some 1
    engine_degraded := false }

/-- Spec scenario 4: the command sequence pushed between two drains. -/
def scenario4_commands : List Command :=
  [.intentCmd 1 1000 "LONG", .intentCmd 2 2000 "SHORT", .intentCmd 3 3000 "FLAT",
   .armCmd 4 4000 true, .armCmd 5 5000 false]

/-- A contract-only quote event for the quote-counting claim (as in
`test_real_quote_after_contract_only_updates_staleness`, first push). -/
def priceless_quote : QuoteEvent :=
  { ts_recv_mono_ns := 500000000
    ts_recv_unix_ms := 1699999998000
    con_id := 654321 }

/-- A snapshot pair used to exercise the logger at two distinct ticks. -/
def snap_with_id (sid : Int) : SnapshotDTO :=
  { snapshot_id := sid, ts_unix_ms := 1700000000000 + sid, ready := false,
    ready_reasons := [REASON_ARM_OFF] }

/-- A fresh logger state: run id "run-1", 1 Hz cadence
(`cadence_interval_ns = 1_000_000_000`), no prior emit. -/
def fresh_logger : LoggerState :=
  { run_id := "run-1", cadence_interval_ns := 1000000000 }

/-- Two ticks one cadence interval apart, each with a snapshot available. -/
def two_tick_inputs : List (Int × Option SnapshotDTO) :=
  [(1000000000, some (snap_with_id 1)), (2000000000, some (snap_with_id 12))]

/-- One complete TriggerCard JSONL line with the given snapshot id (the shape
written by `TriggerCard.to_dict` / `json.dumps`). -/
def triggercard_line (sid : Nat) : String :=
  "\x7b\"schema_version\":\"triggercard.v1\",\"run_id\":\"soak-run\"," ++
  "\"ts_unix_ms\":1700000000000,\"snapshot_id\":" ++ toString sid ++
  ",\"ready\":false,\"ready_reasons\":[\"ARM_OFF\",\"INTENT_FLAT\"]\x7d"

/-- Spec scenario 6: the unfinished byte sequence appended after a crash. -/
def crash_tail_fragment : String :=
  "\x7b\"schema_version\":\"triggercard.v1\",\"run_id\":\"test"

/-- Spec scenario 6: a file of three complete TriggerCards followed by one
truncated partial line. -/
def crash_tail_lines : List String :=
  [triggercard_line 1, triggercard_line 2, triggercard_line 3,
   crash_tail_fragment]

/-- Two empty cycle environments for exercising consecutive snapshot ids. -/
def two_cycle_envs : List CycleEnv :=
  [{ mono_start_ns := 1000000000, unix_start_ms := 1700000000000,
     mono_pre_gate_ns := 1000100000, mono_end_ns := 1000200000 },
   { mono_start_ns := 1100000000, unix_start_ms := 1700000000100,
     mono_pre_gate_ns := 1100100000, mono_end_ns := 1100200000 }]

/-- A cycle environment that drains exactly the priceless quote. -/
def priceless_env : CycleEnv :=
  { mono_start_ns := 1000000000
    unix_start_ms := 1700000000000
    events := [.quote priceless_quote]
    local_hour := 10
    date_today := "2026-03-16"
    date_tomorrow := "2026-03-17"
    mono_pre_gate_ns := 1000100000
    mono_end_ns := 1000200000 }

/-- Gate inputs whose staleness sits exactly at the stale threshold (all other
stale conditions absent). -/
def staleness_at_threshold_inputs : GateInputs :=
  { arm := true
    intent := "LONG"
    in_operating_window := true
    is_break_window := false
    feed_connected := true
    md_mode := "REALTIME"
    con_id := some 12345
    bid := some 18500
    ask := some (18500 + (1 : Rat) / 4)
    last := some 18500
    quote_staleness_ms := some STALE_THRESHOLD_MS
    last_quote_event_mono_ns := none
    ts_mono_ns := 1000000000
    spread_ticks := some 1
    engine_degraded := false }

/-- Gate inputs whose last-quote-event age is exactly the heartbeat timeout:
age_ns = 10_000_000_000, so `age_ns // 1_000_000 = 10000`. -/
def heartbeat_at_timeout_inputs : GateInputs :=
  { arm := true
    intent := "LONG"
    in_operating_window := true
    is_break_window := false
    feed_connected := true
    md_mode := "REALTIME"
    con_id := some 12345
    bid := some 18500
    ask := some (18500 + (1 : Rat) / 4)
    last := some 18500
    quote_staleness_ms := some 100
    last_quote_event_mono_ns := some 1000000000
    ts_mono_ns := 11000000000
    spread_ticks := some 1
    engine_degraded := false }

/-- Gate inputs whose spread sits exactly at `max_spread_ticks`. -/
def spread_at_max_inputs : GateInputs :=
  { arm := true
    intent := "LONG"
    in_operating_window := true
    is_break_window := false
    feed_connected := true
    md_mode := "REALTIME"
    con_id := some 12345
    bid := some 18500
    ask := some 18501
    last := some 18500
    quote_staleness_ms := some 100
    last_quote_event_mono_ns := some 900000000
    ts_mono_ns := 1000000000
    spread_ticks := some MAX_SPREAD_TICKS
    engine_degraded := false }

/-! ## Spec-side characterizations

Definitions transcribed from the claims' words (not from the source), used to
state refinement-style claims against the source embeddings above. -/

/-- "The intent of the last IntentCommand pushed (None if none)": scan the
pushes newest-first for an IntentCommand payload. -/
def last_intent_pushed (cmds : List Command) : Option String :=
  cmds.reverse.findSome? fun c =>
    match c with
    | .intentCmd _ _ it => some it
    | .armCmd _ _ _ => none

/-- "The arm of the last ArmCommand pushed (None if none)". -/
def last_arm_pushed (cmds : List Command) : Option Bool :=
  cmds.reverse.findSome? fun c =>
    match c with
    | .intentCmd _ _ _ => none
    | .armCmd _ _ a => some a

/-- "At most one card per cadence interval": every emitted card's monotonic
time is at least `cad` after the previous emission time (`prev` is the
emission time before the list starts, if any). -/
def emit_gaps_ok (cad : Int) : Option Int → List (Int × TriggerCard) → Prop
  | _, [] => True
  | prev, (t, _) :: rest =>
      (match prev with
       | none => True
       | some p => t - p ≥ cad) ∧ emit_gaps_ok cad (some t) rest

/-! ## Helper lemmas -/

theorem seg_sublist_of_if (c : Prop) [Decidable c] (a : String) :
    List.Sublist (if c then [a] else []) [a] := by
  by_cases hc : c
  · simp [hc]
  · simp [hc]

theorem seg_sublist_of_if_if (c₁ c₂ : Prop) [Decidable c₁] [Decidable c₂] (a : String) :
    List.Sublist (if c₁ then [a] else if c₂ then [a] else []) [a] := by
  by_cases h₁ : c₁
  · simp [h₁]
  · by_cases h₂ : c₂ <;> simp [h₁, h₂]

/-- The reason list of `evaluate_hard_gates` is always a subsequence of the
section-4.2 gate table order. -/
theorem gate_reasons_sublist (inputs : GateInputs) :
    List.Sublist (evaluate_hard_gates inputs).2.1 GATE_TABLE_ORDER := by
  show List.Sublist (gate_reason_codes inputs) GATE_TABLE_ORDER
  unfold gate_reason_codes
  show List.Sublist _ ([REASON_ARM_OFF] ++ [REASON_INTENT_FLAT] ++
    [REASON_OUTSIDE_OPERATING_WINDOW] ++ [REASON_SESSION_BREAK] ++
    [REASON_FEED_DISCONNECTED] ++ [REASON_MD_NOT_REALTIME] ++
    [REASON_NO_CONTRACT] ++ [REASON_STALE_DATA] ++ [REASON_SPREAD_UNAVAILABLE] ++
    [REASON_SPREAD_WIDE] ++ [REASON_ENGINE_DEGRADED])
  refine List.Sublist.append ?_ (seg_sublist_of_if _ _)
  refine List.Sublist.append ?_ (seg_sublist_of_if _ _)
  refine List.Sublist.append ?_ (seg_sublist_of_if_if _ _ _)
  refine List.Sublist.append ?_ (seg_sublist_of_if _ _)
  refine List.Sublist.append ?_ (seg_sublist_of_if _ _)
  refine List.Sublist.append ?_ (seg_sublist_of_if _ _)
  refine List.Sublist.append ?_ (seg_sublist_of_if _ _)
  refine List.Sublist.append ?_ (seg_sublist_of_if _ _)
  refine List.Sublist.append ?_ (seg_sublist_of_if _ _)
  refine List.Sublist.append ?_ (seg_sublist_of_if _ _)
  exact seg_sublist_of_if _ _

theorem mem_if_singleton {p : Prop} [Decidable p] {a c : String} :
    (c ∈ if p then [a] else []) ↔ p ∧ c = a := by
  by_cases hp : p <;> simp [hp]

theorem mem_if_if_singleton {p q : Prop} [Decidable p] [Decidable q] {a c : String} :
    (c ∈ if p then [a] else if q then [a] else []) ↔ (p ∨ (¬ p ∧ q)) ∧ c = a := by
  by_cases hp : p
  · simp [hp]
  · by_cases hq : q <;> simp [hp, hq]

/-- Membership in the gate reason list, gate by gate. -/
theorem mem_gate_reason_codes (i : GateInputs) (c : String) :
    c ∈ gate_reason_codes i ↔
      ((¬ i.arm) ∧ c = REASON_ARM_OFF) ∨
      ((i.intent = "FLAT") ∧ c = REASON_INTENT_FLAT) ∨
      ((¬ i.in_operating_window) ∧ c = REASON_OUTSIDE_OPERATING_WINDOW) ∨
      (i.is_break_window ∧ c = REASON_SESSION_BREAK) ∨
      ((¬ i.feed_connected) ∧ c = REASON_FEED_DISCONNECTED) ∨
      ((i.md_mode ≠ "REALTIME") ∧ c = REASON_MD_NOT_REALTIME) ∨
      ((i.con_id = none) ∧ c = REASON_NO_CONTRACT) ∨
      (check_stale_data i ∧ c = REASON_STALE_DATA) ∨
      (((i.bid = none ∨ i.ask = none) ∨
        (¬ (i.bid = none ∨ i.ask = none) ∧
          (match i.spread_ticks with
           | none => true
           | some st => decide (st ≤ 0)) = true)) ∧ c = REASON_SPREAD_UNAVAILABLE) ∨
      ((match i.spread_ticks with
        | none => false
        | some st => decide (st > 0 ∧ st > i.max_spread_ticks)) = true ∧
        c = REASON_SPREAD_WIDE) ∨
      (i.engine_degraded ∧ c = REASON_ENGINE_DEGRADED) := by
  unfold gate_reason_codes
  simp only [List.mem_append, mem_if_singleton, mem_if_if_singleton, or_assoc]

/-- `_check_stale_data` is false when the quote is present, any reported
staleness is at most the threshold, and any last-quote age is at most the
heartbeat timeout. -/
theorem check_stale_data_eq_false (i : GateInputs)
    (hq : ¬(i.bid = none ∧ i.ask = none ∧ i.last = none))
    (hs : ∀ st, i.quote_staleness_ms = some st → st ≤ i.stale_threshold_ms)
    (hh : ∀ lq, i.last_quote_event_mono_ns = some lq →
          Int.fdiv (i.ts_mono_ns - lq) 1000000 ≤ i.feed_heartbeat_timeout_ms) :
    check_stale_data i = false := by
  unfold check_stale_data
  rw [if_neg hq]
  have h2 : (match i.quote_staleness_ms with
             | some st => decide (st > i.stale_threshold_ms)
             | none => false) = false := by
    cases hqs : i.quote_staleness_ms with
    | none => rfl
    | some st =>
        simpa using not_lt.mpr (hs st hqs)
  rw [h2]
  simp only [Bool.false_eq_true, if_false]
  cases hlq : i.last_quote_event_mono_ns with
  | none => rfl
  | some lq =>
      simpa using not_lt.mpr (hh lq hlq)

theorem stale_not_mem_of_not_stale (i : GateInputs)
    (h : check_stale_data i = false) :
    REASON_STALE_DATA ∉ gate_reason_codes i := by
  simp only [mem_gate_reason_codes, h]
  simp [REASON_ARM_OFF, REASON_INTENT_FLAT, REASON_OUTSIDE_OPERATING_WINDOW,
        REASON_SESSION_BREAK, REASON_FEED_DISCONNECTED, REASON_MD_NOT_REALTIME,
        REASON_NO_CONTRACT, REASON_STALE_DATA, REASON_SPREAD_UNAVAILABLE,
        REASON_SPREAD_WIDE, REASON_ENGINE_DEGRADED]

/-- SPREAD_WIDE is in the reason list exactly when gate 10's condition holds. -/
theorem spread_wide_mem_iff (i : GateInputs) :
    REASON_SPREAD_WIDE ∈ gate_reason_codes i ↔
      (match i.spread_ticks with
       | none => false
       | some st => decide (st > 0 ∧ st > i.max_spread_ticks)) = true := by
  simp only [mem_gate_reason_codes]
  simp [REASON_ARM_OFF, REASON_INTENT_FLAT, REASON_OUTSIDE_OPERATING_WINDOW,
        REASON_SESSION_BREAK, REASON_FEED_DISCONNECTED, REASON_MD_NOT_REALTIME,
        REASON_NO_CONTRACT, REASON_STALE_DATA, REASON_SPREAD_UNAVAILABLE,
        REASON_SPREAD_WIDE, REASON_ENGINE_DEGRADED]

/-- OUTSIDE_OPERATING_WINDOW is in the reason list exactly when the
operating-window input is false. -/
theorem outside_window_mem_iff (i : GateInputs) :
    REASON_OUTSIDE_OPERATING_WINDOW ∈ gate_reason_codes i ↔
      i.in_operating_window = false := by
  simp only [mem_gate_reason_codes]
  simp [REASON_ARM_OFF, REASON_INTENT_FLAT, REASON_OUTSIDE_OPERATING_WINDOW,
        REASON_SESSION_BREAK, REASON_FEED_DISCONNECTED, REASON_MD_NOT_REALTIME,
        REASON_NO_CONTRACT, REASON_STALE_DATA, REASON_SPREAD_UNAVAILABLE,
        REASON_SPREAD_WIDE, REASON_ENGINE_DEGRADED]

/-- SPREAD_UNAVAILABLE membership: gate 9's two-branch condition. -/
theorem spread_unavailable_mem_iff (i : GateInputs) :
    REASON_SPREAD_UNAVAILABLE ∈ gate_reason_codes i ↔
      ((i.bid = none ∨ i.ask = none) ∨
       (¬ (i.bid = none ∨ i.ask = none) ∧
        (match i.spread_ticks with
         | none => true
         | some st => decide (st ≤ 0)) = true)) := by
  simp only [mem_gate_reason_codes]
  simp [REASON_ARM_OFF, REASON_INTENT_FLAT, REASON_OUTSIDE_OPERATING_WINDOW,
        REASON_SESSION_BREAK, REASON_FEED_DISCONNECTED, REASON_MD_NOT_REALTIME,
        REASON_NO_CONTRACT, REASON_STALE_DATA, REASON_SPREAD_UNAVAILABLE,
        REASON_SPREAD_WIDE, REASON_ENGINE_DEGRADED]

/-! ## Claims -/

/-- C1: the claim says every engine cycle constructs one Snapshot whose session
record carries `in_operating_window`, `is_break_window`, `session_date_iso` and
a derived `session_phase`, and publishes it. The code cannot: `_run_cycle_once`
passes the keyword `session_phase` to `SessionDTO`, which declares no such
field, so the dataclass call raises `TypeError` and no Snapshot is constructed
or published in any cycle. -/
theorem C1_sessionDTO_rejects_session_phase_kwarg :
    dataclass_call_accepts SessionDTO_field_names engine_SessionDTO_kwargs = false ∧
    "session_phase" ∈ engine_SessionDTO_kwargs ∧
    "session_phase" ∉ SessionDTO_field_names := by
  refine ⟨by decide, by decide, by decide⟩

/-- C2: on the all-fail inputs (arm off, FLAT, outside window, in break,
disconnected, DELAYED, no contract, all prices null, no spread, engine
degraded), `evaluate_hard_gates` returns `allowed = false` and exactly the ten
reason codes in table order; and for every input the reason list is a
subsequence of the section-4.2 gate table order. -/
theorem C2_all_fail_vector_and_table_order :
    (∀ ts_mono_ns : Int,
      (evaluate_hard_gates (all_fail_inputs ts_mono_ns)).1 = false ∧
      (evaluate_hard_gates (all_fail_inputs ts_mono_ns)).2.1 = ALL_FAIL_REASONS) ∧
    (∀ inputs : GateInputs,
      List.Sublist (evaluate_hard_gates inputs).2.1 GATE_TABLE_ORDER) := by
  constructor
  · intro ts
    exact ⟨rfl, rfl⟩
  · exact gate_reasons_sublist

/-- C3: the claim says a drained QuoteEvent carrying a contract id is stored as
the instrument `con_id`, so gate evaluation sees `con_id` non-null. The code
does neither: `_drain_inbound_events` never reads `event.con_id`, and
`_run_cycle_once` hands the gates `InstrumentDTO().con_id`, the fresh default
`None` — so the published snapshot's `instrument.con_id` is `None` and
`NO_CONTRACT` fires in every cycle, even after the contract-only quote of
`tests/test_contract_and_staleness.py` has been drained. -/
theorem C3_con_id_never_stored :
    (∀ (cfg : EngineConfig) (mgr : SessionManager) (run_id : String)
       (run_start : Int) (s0 : EngineState) (env : CycleEnv),
       (run_cycle_once cfg mgr run_id run_start s0 env).2.instrument.con_id = none ∧
       (cycle_gate_inputs cfg mgr (cycle_drained_state s0 env) env).con_id = none ∧
       REASON_NO_CONTRACT ∈
         (run_cycle_once cfg mgr run_id run_start s0 env).2.gates.reason_codes) ∧
    (contract_only_quote.con_id = 123456 ∧
     (run_cycle_once {} {} "run" 0 {} contract_only_env).2.instrument.con_id = none ∧
     REASON_NO_CONTRACT ∈
       (run_cycle_once {} {} "run" 0 {} contract_only_env).2.gates.reason_codes) := by
  constructor
  · intro cfg mgr run_id run_start s0 env
    refine ⟨rfl, rfl, ?_⟩
    show REASON_NO_CONTRACT ∈
      gate_reason_codes (cycle_gate_inputs cfg mgr (cycle_drained_state s0 env) env)
    refine (mem_gate_reason_codes _ _).mpr ?_
    exact Or.inr (Or.inr (Or.inr (Or.inr (Or.inr (Or.inr (Or.inl ⟨rfl, rfl⟩))))))
  · exact ⟨rfl, rfl, by decide⟩

/-- C4 counterexample: the claim also asserts that a local time whose hour
equals the operating-window end hour does not trigger its gate. False: with the
default `SessionManager` the end hour is 16, hour 16 is outside the half-open
window `[7, 16)`, and on gate inputs where every other gate passes the output
is exactly `[OUTSIDE_OPERATING_WINDOW]` — the gate does trigger. -/
theorem C4_counterexample_end_hour_triggers_gate :
    ({} : SessionManager).operating_end_hour = 16 ∧
    SessionManager.in_operating_window {} 16 = false ∧
    (evaluate_hard_gates hour16_boundary_inputs).2.1 =
      [REASON_OUTSIDE_OPERATING_WINDOW] := by
  refine ⟨rfl, by decide, by decide⟩

/-- C4 (amended): threshold comparisons are strict, so boundary values do not
trigger their gates — staleness exactly at `stale_threshold_ms` does not
produce STALE_DATA, a last-quote age of exactly `feed_heartbeat_timeout_ms`
does not produce STALE_DATA, and spread exactly at `max_spread_ticks` does not
produce SPREAD_WIDE. The operating-window end hour, by contrast, lies outside
the half-open window `[start, end)`: `in_operating_window` is false there and
the OUTSIDE_OPERATING_WINDOW gate does trigger. -/
theorem C4_amended_strict_thresholds :
    (∀ i : GateInputs,
       i.quote_staleness_ms = some i.stale_threshold_ms →
       ¬(i.bid = none ∧ i.ask = none ∧ i.last = none) →
       (∀ lq, i.last_quote_event_mono_ns = some lq →
          Int.fdiv (i.ts_mono_ns - lq) 1000000 ≤ i.feed_heartbeat_timeout_ms) →
       REASON_STALE_DATA ∉ (evaluate_hard_gates i).2.1) ∧
    (∀ (i : GateInputs) (lq : Int),
       i.last_quote_event_mono_ns = some lq →
       Int.fdiv (i.ts_mono_ns - lq) 1000000 = i.feed_heartbeat_timeout_ms →
       ¬(i.bid = none ∧ i.ask = none ∧ i.last = none) →
       (∀ st, i.quote_staleness_ms = some st → st ≤ i.stale_threshold_ms) →
       REASON_STALE_DATA ∉ (evaluate_hard_gates i).2.1) ∧
    (∀ i : GateInputs, i.spread_ticks = some i.max_spread_ticks →
       REASON_SPREAD_WIDE ∉ (evaluate_hard_gates i).2.1) ∧
    (∀ m : SessionManager, m.in_operating_window m.operating_end_hour = false) ∧
    (∀ i : GateInputs, i.in_operating_window = false →
       REASON_OUTSIDE_OPERATING_WINDOW ∈ (evaluate_hard_gates i).2.1) := by
  refine ⟨?_, ?_, ?_, ?_, ?_⟩
  · intro i h1 h2 h3
    show REASON_STALE_DATA ∉ gate_reason_codes i
    refine stale_not_mem_of_not_stale i (check_stale_data_eq_false i h2 ?_ h3)
    intro st hst
    rw [h1] at hst
    cases hst
    exact le_refl _
  · intro i lq hlq hage h2 hs
    show REASON_STALE_DATA ∉ gate_reason_codes i
    refine stale_not_mem_of_not_stale i (check_stale_data_eq_false i h2 hs ?_)
    intro lq2 hlq2
    rw [hlq] at hlq2
    cases hlq2
    exact le_of_eq hage
  · intro i hsp
    show REASON_SPREAD_WIDE ∉ gate_reason_codes i
    intro hmem
    have h := (spread_wide_mem_iff i).mp hmem
    rw [hsp] at h
    simp at h
  · intro m
    simp [SessionManager.in_operating_window]
  · intro i h
    show REASON_OUTSIDE_OPERATING_WINDOW ∈ gate_reason_codes i
    exact (outside_window_mem_iff i).mpr h

/-- C4 witness: the amended theorem applied at the three boundary vectors and
at the default session manager / hour-16 inputs. -/
theorem C4_amended_strict_thresholds_witness :
    REASON_STALE_DATA ∉ (evaluate_hard_gates staleness_at_threshold_inputs).2.1 ∧
    REASON_STALE_DATA ∉ (evaluate_hard_gates heartbeat_at_timeout_inputs).2.1 ∧
    REASON_SPREAD_WIDE ∉ (evaluate_hard_gates spread_at_max_inputs).2.1 ∧
    SessionManager.in_operating_window {} ({} : SessionManager).operating_end_hour = false ∧
    REASON_OUTSIDE_OPERATING_WINDOW ∈ (evaluate_hard_gates hour16_boundary_inputs).2.1 := by
  refine ⟨?_, ?_, ?_, ?_, ?_⟩
  · exact C4_amended_strict_thresholds.1 staleness_at_threshold_inputs rfl
      (by decide) (by intro lq h; exact Option.noConfusion h)
  · exact C4_amended_strict_thresholds.2.1 heartbeat_at_timeout_inputs 1000000000
      rfl (by decide) (by decide) (by intro st h; cases h; decide)
  · exact C4_amended_strict_thresholds.2.2.1 spread_at_max_inputs rfl
  · exact C4_amended_strict_thresholds.2.2.2.1 {}
  · exact C4_amended_strict_thresholds.2.2.2.2 hour16_boundary_inputs (by decide)

theorem drain_commands_snapshot_id (s : EngineState) (cmds : List Command) :
    (drain_commands s cmds).snapshot_id = s.snapshot_id := by
  unfold drain_commands
  cases h1 : (CommandQueue.drain cmds).intent <;>
    cases h2 : (CommandQueue.drain cmds).arm <;>
      by_cases h3 : (CommandQueue.drain cmds).last_cmd_id > 0 <;>
        simp [h1, h2, h3]

theorem apply_inbound_event_snapshot_id (s : EngineState) (ev : InboundEvent) :
    (apply_inbound_event s ev).snapshot_id = s.snapshot_id := by
  cases ev <;> simp only [apply_inbound_event] <;> (repeat' split) <;> rfl

theorem drain_inbound_events_snapshot_id (events : List InboundEvent) :
    ∀ s : EngineState, (drain_inbound_events s events).snapshot_id = s.snapshot_id := by
  induction events with
  | nil => intro s; rfl
  | cons ev rest ih =>
      intro s
      show (drain_inbound_events (apply_inbound_event s ev) rest).snapshot_id = _
      rw [ih, apply_inbound_event_snapshot_id]

theorem cycle_drained_state_snapshot_id (s : EngineState) (env : CycleEnv) :
    (cycle_drained_state s env).snapshot_id = s.snapshot_id + 1 := by
  unfold cycle_drained_state
  rw [drain_inbound_events_snapshot_id, drain_commands_snapshot_id]

/-- C5: the claim says the published snapshots' ids start at 1 and increment
by exactly 1 per cycle; the code publishes nothing at all. `_run_cycle_once`
does increment `_snapshot_id` (the instance counter advances by one per
attempted cycle), but the `SessionDTO(..., session_phase=...)` call in the
snapshot construction raises `TypeError` before `datahub.publish`, `_run_loop`
has no handler, and the engine thread dies on its first cycle — so the trace
of published snapshots is empty in every run: no published Snapshot with
`snapshot_id = 1` and no consecutively published pair ever exists, while
`tests/test_snapshot_monotonic.py` requires published ids 1, 2, 3, .... -/
theorem C5_no_snapshot_ever_published :
    (∀ (cfg : EngineConfig) (mgr : SessionManager) (run_id : String)
       (run_start : Int) (s0 : EngineState) (env : CycleEnv),
       (run_cycle_once_checked cfg mgr run_id run_start s0 env).2 =
         Except.error "TypeError: unexpected keyword argument session_phase" ∧
       (run_cycle_once_checked cfg mgr run_id run_start s0 env).1.snapshot_id =
         s0.snapshot_id + 1) ∧
    (∀ (cfg : EngineConfig) (mgr : SessionManager) (run_id : String)
       (run_start : Int) (envs : List CycleEnv),
       (run_engine_cycles_checked cfg mgr run_id run_start {} envs).2 = []) ∧
    (run_engine_cycles_checked {} {} "run" 0 {} two_cycle_envs).2 = [] := by
  refine ⟨?_, ?_, rfl⟩
  · intro cfg mgr run_id run_start s0 env
    exact ⟨rfl, cycle_drained_state_snapshot_id s0 env⟩
  · intro cfg mgr run_id run_start envs
    cases envs with
    | nil => rfl
    | cons env rest => rfl

theorem drain_intent_eq_last_pushed (cmds : List Command) :
    (CommandQueue.drain cmds).intent = last_intent_pushed cmds := by
  induction cmds using List.reverseRecOn with
  | nil => rfl
  | append_singleton l x ih =>
      unfold CommandQueue.drain at ih ⊢
      rw [List.foldl_append]
      unfold last_intent_pushed at ih ⊢
      rw [List.reverse_append]
      cases x with
      | intentCmd cid ts it => simp [List.findSome?]
      | armCmd cid ts a => simpa [List.findSome?] using ih

theorem drain_arm_eq_last_pushed (cmds : List Command) :
    (CommandQueue.drain cmds).arm = last_arm_pushed cmds := by
  induction cmds using List.reverseRecOn with
  | nil => rfl
  | append_singleton l x ih =>
      unfold CommandQueue.drain at ih ⊢
      rw [List.foldl_append]
      unfold last_arm_pushed at ih ⊢
      rw [List.reverse_append]
      cases x with
      | intentCmd cid ts it => simpa [List.findSome?] using ih
      | armCmd cid ts a => simp [List.findSome?]

theorem drain_last_cmd_of_ne_nil (cmds : List Command) (h : cmds ≠ []) :
    (CommandQueue.drain cmds).last_cmd_id = (cmds.getLast h).cmd_id ∧
    (CommandQueue.drain cmds).last_cmd_ts_unix_ms = some (cmds.getLast h).ts_unix_ms := by
  induction cmds using List.reverseRecOn with
  | nil => exact absurd rfl h
  | append_singleton l x ih =>
      have hg : (l ++ [x]).getLast h = x := List.getLast_append_singleton l
      unfold CommandQueue.drain
      rw [List.foldl_append, hg]
      cases x <;> exact ⟨rfl, rfl⟩

/-- C6: `CommandQueue.drain` is last-write-wins per kind — the batch's intent
is the payload of the last IntentCommand pushed (None if none), the batch's arm
is the payload of the last ArmCommand pushed (None if none), and
`last_cmd_id` / `last_cmd_ts` are those of the newest command of any kind; on
the scenario-4 sequence the batch is
(intent=FLAT, arm=false, last_cmd_id=5, ts=5000). -/
theorem C6_drain_last_write_wins :
    (∀ cmds : List Command,
       (CommandQueue.drain cmds).intent = last_intent_pushed cmds ∧
       (CommandQueue.drain cmds).arm = last_arm_pushed cmds) ∧
    (∀ (cmds : List Command) (h : cmds ≠ []),
       (CommandQueue.drain cmds).last_cmd_id = (cmds.getLast h).cmd_id ∧
       (CommandQueue.drain cmds).last_cmd_ts_unix_ms =
         some (cmds.getLast h).ts_unix_ms) ∧
    CommandQueue.drain scenario4_commands =
      { intent := some "FLAT", arm := some false, last_cmd_id := 5,
        last_cmd_ts_unix_ms := some 5000 } := by
  refine ⟨?_, ?_, by decide⟩
  · intro cmds
    exact ⟨drain_intent_eq_last_pushed cmds, drain_arm_eq_last_pushed cmds⟩
  · intro cmds h
    exact drain_last_cmd_of_ne_nil cmds h

/-- C6 witness: the newest-command clause applied to the scenario-4 pushes. -/
theorem C6_drain_last_write_wins_witness :
    (CommandQueue.drain scenario4_commands).last_cmd_id =
      (scenario4_commands.getLast (by decide)).cmd_id ∧
    (CommandQueue.drain scenario4_commands).last_cmd_ts_unix_ms =
      some (scenario4_commands.getLast (by decide)).ts_unix_ms :=
  C6_drain_last_write_wins.2.1 scenario4_commands (by decide)

/-- C7: the claim says `quotes_received_count` is incremented only when at
least one price field of the drained QuoteEvent is non-null. The code
increments it for every QuoteEvent unconditionally (engine.py line 260): on a
quote whose bid, ask and last are all null the count still rises from 0 to 1,
and the published snapshot reports 1, where the claim (and
`test_contract_only_quote_does_not_update_staleness`) require 0. -/
theorem C7_quote_count_incremented_unconditionally :
    (∀ (s : EngineState) (e : QuoteEvent),
       (apply_inbound_event s (.quote e)).quotes_received_count =
         s.quotes_received_count + 1) ∧
    (priceless_quote.bid = none ∧ priceless_quote.ask = none ∧
     priceless_quote.last = none) ∧
    (apply_inbound_event {} (.quote priceless_quote)).quotes_received_count = 1 ∧
    (run_cycle_once {} {} "run" 0 {} priceless_env).2.quotes_received_count = 1 := by
  exact ⟨fun s e => rfl, ⟨rfl, rfl, rfl⟩, rfl, rfl⟩

theorem should_emit_iff (st : LoggerState) (now : Int) :
    st.should_emit now = true ↔
      (st.last_emit_mono_ns = none ∨
       ∃ p, st.last_emit_mono_ns = some p ∧ now - p ≥ st.cadence_interval_ns) := by
  cases h : st.last_emit_mono_ns <;> simp [LoggerState.should_emit, h]

theorem run_ticks_gaps (ticks : List (Int × Option SnapshotDTO)) :
    ∀ st : LoggerState,
      emit_gaps_ok st.cadence_interval_ns st.last_emit_mono_ns
        ((st.run_ticks ticks).2) := by
  induction ticks with
  | nil => intro st; trivial
  | cons t rest ih =>
      intro st
      obtain ⟨now, snap⟩ := t
      cases snap with
      | none =>
          have htick : st.tick now none = (st, none) := by
            by_cases hse : st.should_emit now = true <;> simp [LoggerState.tick, hse]
          show emit_gaps_ok _ _ ((st.run_ticks ((now, none) :: rest)).2)
          unfold LoggerState.run_ticks
          rw [htick]
          exact ih st
      | some s0 =>
          by_cases hse : st.should_emit now = true
          · have htick : st.tick now (some s0) =
                ({ st with last_emit_mono_ns := some now },
                 some { schema_version := "triggercard.v1"
                        run_id := st.run_id
                        ts_unix_ms := s0.ts_unix_ms
                        snapshot_id := s0.snapshot_id
                        ready := s0.ready
                        ready_reasons := s0.ready_reasons }) := by
              simp [LoggerState.tick, hse]
            show emit_gaps_ok _ _ ((st.run_ticks ((now, some s0) :: rest)).2)
            unfold LoggerState.run_ticks
            rw [htick]
            refine ⟨?_, ?_⟩
            · cases hl : st.last_emit_mono_ns with
              | none => trivial
              | some p =>
                  have hc := (should_emit_iff st now).mp hse
                  rcases hc with h | ⟨q, hq, hge⟩
                  · rw [hl] at h; cases h
                  · rw [hl] at hq; cases hq; exact hge
            · exact ih { st with last_emit_mono_ns := some now }
          · have htick : st.tick now (some s0) = (st, none) := by
              simp [LoggerState.tick, hse]
            show emit_gaps_ok _ _ ((st.run_ticks ((now, some s0) :: rest)).2)
            unfold LoggerState.run_ticks
            rw [htick]
            exact ih st

theorem emit_gaps_ok_get (cad : Int) :
    ∀ (l : List (Int × TriggerCard)) (prev : Option Int),
      emit_gaps_ok cad prev l →
      ∀ (k : Nat) (h : k + 1 < l.length),
        (l.get ⟨k + 1, h⟩).1 - (l.get ⟨k, Nat.lt_of_succ_lt h⟩).1 ≥ cad := by
  intro l
  induction l with
  | nil => intro prev hok k h; simp at h
  | cons t rest ih =>
      intro prev hok k h
      obtain ⟨hfst, htail⟩ := hok
      cases k with
      | zero =>
          cases rest with
          | nil => simp at h
          | cons r rest2 =>
              show r.1 - t.1 ≥ cad
              exact htail.1
      | succ k =>
          exact ih (some t.1) htail k (Nat.lt_of_succ_lt_succ h)

/-- C8: `tick` emits iff the snapshot argument is non-null and either no prior
emit exists or `now - last_emit >= cadence_interval_ns`; an emitted card's
`snapshot_id` is the argument snapshot's id; and over any sequence of ticks the
monotonic times of consecutive emissions differ by at least the cadence
interval (at most one card per interval). -/
theorem C8_logger_cadence_and_card_id :
    (∀ (st : LoggerState) (now : Int) (snap : Option SnapshotDTO),
       (st.tick now snap).2.isSome = true ↔
         (snap.isSome = true ∧
          (st.last_emit_mono_ns = none ∨
           ∃ p, st.last_emit_mono_ns = some p ∧
                now - p ≥ st.cadence_interval_ns))) ∧
    (∀ (st : LoggerState) (now : Int) (s0 : SnapshotDTO) (st2 : LoggerState)
       (card : TriggerCard),
       st.tick now (some s0) = (st2, some card) →
       card.snapshot_id = s0.snapshot_id ∧
       st2.last_emit_mono_ns = some now) ∧
    (∀ (st : LoggerState) (ticks : List (Int × Option SnapshotDTO))
       (k : Nat) (h : k + 1 < ((st.run_ticks ticks).2).length),
       (((st.run_ticks ticks).2).get ⟨k + 1, h⟩).1 -
         (((st.run_ticks ticks).2).get ⟨k, Nat.lt_of_succ_lt h⟩).1 ≥
       st.cadence_interval_ns) := by
  refine ⟨?_, ?_, ?_⟩
  · intro st now snap
    by_cases hse : st.should_emit now = true
    · cases snap with
      | none => simp [LoggerState.tick, hse]
      | some s0 =>
          have htick : st.tick now (some s0) =
              ({ st with last_emit_mono_ns := some now },
               some { schema_version := "triggercard.v1"
                      run_id := st.run_id
                      ts_unix_ms := s0.ts_unix_ms
                      snapshot_id := s0.snapshot_id
                      ready := s0.ready
                      ready_reasons := s0.ready_reasons }) := by
            simp [LoggerState.tick, hse]
          rw [htick]
          simpa using (should_emit_iff st now).mp hse
    · have hnc : ¬(st.last_emit_mono_ns = none ∨
          ∃ p, st.last_emit_mono_ns = some p ∧
               now - p ≥ st.cadence_interval_ns) :=
        fun hc => hse ((should_emit_iff st now).mpr hc)
      cases snap with
      | none => simp [LoggerState.tick, hse]
      | some s0 => simp [LoggerState.tick, hse, hnc]
  · intro st now s0 st2 card htick
    by_cases hse : st.should_emit now = true
    · have ht : st.tick now (some s0) =
          ({ st with last_emit_mono_ns := some now },
           some { schema_version := "triggercard.v1"
                  run_id := st.run_id
                  ts_unix_ms := s0.ts_unix_ms
                  snapshot_id := s0.snapshot_id
                  ready := s0.ready
                  ready_reasons := s0.ready_reasons }) := by
        simp [LoggerState.tick, hse]
      rw [ht] at htick
      have hst : ({ st with last_emit_mono_ns := some now } : LoggerState) = st2 :=
        congrArg Prod.fst htick
      have hcard := Option.some.inj (congrArg Prod.snd htick)
      rw [← hcard, ← hst]
      exact ⟨rfl, rfl⟩
    · have ht : st.tick now (some s0) = (st, none) := by
        simp [LoggerState.tick, hse]
      rw [ht] at htick
      exact absurd (congrArg Prod.snd htick) (by simp)
  · intro st ticks k h
    exact emit_gaps_ok_get st.cadence_interval_ns ((st.run_ticks ticks).2)
      st.last_emit_mono_ns (run_ticks_gaps ticks st) k h

/-- C8 witness: a fresh 1 Hz logger ticked twice one second apart emits twice;
the emission gap meets the cadence bound and the first card carries the
snapshot's id. -/
theorem C8_logger_cadence_witness :
    (((fresh_logger.run_ticks two_tick_inputs).2).get ⟨1, by decide⟩).1 -
      (((fresh_logger.run_ticks two_tick_inputs).2).get ⟨0, by decide⟩).1 ≥
      fresh_logger.cadence_interval_ns ∧
    ({ schema_version := "triggercard.v1", run_id := "run-1",
       ts_unix_ms := 1700000000001, snapshot_id := 1, ready := false,
       ready_reasons := [REASON_ARM_OFF] } : TriggerCard).snapshot_id =
      (snap_with_id 1).snapshot_id := by
  constructor
  · exact C8_logger_cadence_and_card_id.2.2 fresh_logger two_tick_inputs 0 (by decide)
  · exact (C8_logger_cadence_and_card_id.2.1 fresh_logger 1000000000 (snap_with_id 1)
      { run_id := "run-1", cadence_interval_ns := 1000000000,
        last_emit_mono_ns := some 1000000000 }
      { schema_version := "triggercard.v1", run_id := "run-1",
        ts_unix_ms := 1700000000001, snapshot_id := 1, ready := false,
        ready_reasons := [REASON_ARM_OFF] } (by decide)).1

theorem run_validator_append (total : Nat) (xs : List String) :
    ∀ (ys : List String) (i : Nat) (st : VState),
      run_validator total i (xs ++ ys) st =
        (run_validator total i xs st).bind
          (fun st2 => run_validator total (i + xs.length) ys st2) := by
  induction xs with
  | nil =>
      intro ys i st
      simp [run_validator]
  | cons l rest ih =>
      intro ys i st
      show run_validator total i (l :: (rest ++ ys)) st = _
      cases hp : process_validator_line total i l st with
      | none => simp [run_validator, hp]
      | some st2 =>
          simp only [run_validator, hp]
          rw [ih ys (i + 1) st2]
          have harith : i + (l :: rest).length = (i + 1) + rest.length := by
            simp only [List.length_cons]
            omega
          rw [harith]

theorem process_validator_line_errors_extend (total i : Nat) (raw : String)
    (st st2 : VState) (h : process_validator_line total i raw st = some st2) :
    ∃ δ, st2.errors = st.errors ++ δ := by
  simp only [process_validator_line] at h
  by_cases h0 : pyStrip raw = ""
  · rw [if_pos h0] at h; cases h; exact ⟨[], by simp⟩
  · rw [if_neg h0] at h
    cases hj : json_loads (pyStrip raw) with
    | none =>
        rw [hj] at h
        by_cases hi : i = total
        · rw [if_pos hi] at h; cases h; exact ⟨[], by simp⟩
        · rw [if_neg hi] at h; cases h; exact ⟨_, rfl⟩
    | some v =>
        cases v with
        | obj members =>
            simp only [hj] at h
            cases hsv : jsonMemberLookup members "schema_version" with
            | none => simp only [hsv] at h; cases h; exact ⟨_, rfl⟩
            | some sv =>
                simp only [hsv] at h
                split at h
                · cases h; exact ⟨_, rfl⟩
                · split at h
                  · cases h; exact ⟨_, rfl⟩
                  · cases h; exact ⟨[], by simp⟩
        | null => simp only [hj] at h; exact Option.noConfusion h
        | bool b => simp only [hj] at h; exact Option.noConfusion h
        | num n => simp only [hj] at h; exact Option.noConfusion h
        | str s2 => simp only [hj] at h; exact Option.noConfusion h
        | arr xs => simp only [hj] at h; exact Option.noConfusion h

theorem run_validator_errors_extend (lines : List String) :
    ∀ (total i : Nat) (st st2 : VState),
      run_validator total i lines st = some st2 →
      ∃ δ, st2.errors = st.errors ++ δ := by
  induction lines with
  | nil =>
      intro total i st st2 h
      cases h
      exact ⟨[], by simp⟩
  | cons l rest ih =>
      intro total i st st2 h
      unfold run_validator at h
      cases hp : process_validator_line total i l st with
      | none => rw [hp] at h; exact Option.noConfusion h
      | some stm =>
          rw [hp] at h
          obtain ⟨δ1, h1⟩ := process_validator_line_errors_extend total i l st stm hp
          obtain ⟨δ2, h2⟩ := ih total (i + 1) stm st2 h
          exact ⟨δ1 ++ δ2, by rw [h2, h1, List.append_assoc]⟩

theorem run_validator_truncated_last (total : Nat) (bad : String) (st : VState)
    (hne : pyStrip bad ≠ "") (hdec : json_loads (pyStrip bad) = none) :
    run_validator total total [bad] st =
      some { st with has_truncated_line := true,
                     truncated_line_content := some (pyStrip bad) } := by
  simp [run_validator, process_validator_line, hne, hdec]

/-- C9: the validator treats a JSON decode failure on the final line as
truncated-ok — it sets `has_truncated_line`, adds no error and keeps only the
prior lines' counts and errors — while a decode failure on any non-final line
contributes a decode error; and on the crash-tail file of three complete
TriggerCards plus one truncated unfinished line it reports valid_count = 3,
has_truncated_line = true, errors = [] and success = true. -/
theorem C9_validator_crash_tail :
    (∀ (ls : List String) (bad : String),
       pyStrip bad ≠ "" →
       json_loads (pyStrip bad) = none →
       validate_triggercard_file (ls ++ [bad]) =
         (run_validator (ls.length + 1) 1 ls {}).map
           (fun st =>
             { valid_count := st.valid_count
               has_truncated_line := true
               truncated_line_content := some (pyStrip bad)
               errors := st.errors
               success := st.errors.isEmpty })) ∧
    (∀ (ls1 : List String) (bad : String) (ls2 : List String)
       (r : ValidationResult),
       pyStrip bad ≠ "" →
       json_loads (pyStrip bad) = none →
       ls2 ≠ [] →
       validate_triggercard_file (ls1 ++ bad :: ls2) = some r →
       LineError.jsonDecodeError (ls1.length + 1) ∈ r.errors) ∧
    validate_triggercard_file crash_tail_lines =
      some { valid_count := 3, has_truncated_line := true,
             truncated_line_content := some crash_tail_fragment,
             errors := [], success := true } := by
  refine ⟨?_, ?_, by decide⟩
  · intro ls bad hne hdec
    unfold validate_triggercard_file
    have hlen : (ls ++ [bad]).length = ls.length + 1 := by simp
    rw [hlen]
    rw [run_validator_append (ls.length + 1) ls [bad] 1 {}]
    have hmid : ∀ st2 : VState,
        run_validator (ls.length + 1) (1 + ls.length) [bad] st2 =
          some { st2 with has_truncated_line := true,
                          truncated_line_content := some (pyStrip bad) } := by
      intro st2
      rw [Nat.add_comm 1 ls.length]
      exact run_validator_truncated_last (ls.length + 1) bad st2 hne hdec
    cases hX : run_validator (ls.length + 1) 1 ls {} with
    | none => simp
    | some st =>
        simp only [Option.some_bind, hmid st, Option.map_some']
  · intro ls1 bad ls2 r hne hdec hls2 hval
    unfold validate_triggercard_file at hval
    have hsplit : ls1 ++ bad :: ls2 = (ls1 ++ [bad]) ++ ls2 := by simp
    rw [hsplit] at hval
    rw [run_validator_append _ (ls1 ++ [bad]) ls2 1 {}] at hval
    rw [run_validator_append _ ls1 [bad] 1 {}] at hval
    have hpos : 0 < ls2.length := List.length_pos.mpr hls2
    have hmid : ∀ st2 : VState,
        run_validator ((ls1 ++ [bad]) ++ ls2).length (1 + ls1.length) [bad] st2 =
          some { st2 with errors :=
            st2.errors ++ [LineError.jsonDecodeError (1 + ls1.length)] } := by
      intro st2
      have hne2 : ¬ (1 + ls1.length = ls1.length + (ls2.length + 1)) := by omega
      simp [run_validator, process_validator_line, hne, hdec, hne2]
    rw [Option.map_eq_some'] at hval
    obtain ⟨stC0, hrun, hfr⟩ := hval
    rw [Option.bind_eq_some] at hrun
    obtain ⟨stB, hAB, hBC⟩ := hrun
    rw [Option.bind_eq_some] at hAB
    obtain ⟨stA, hA, hmidA⟩ := hAB
    rw [hmid stA] at hmidA
    have hstB := Option.some.inj hmidA
    obtain ⟨δ, hδ⟩ := run_validator_errors_extend ls2 _ _ _ _ hBC
    rw [← hfr]
    show LineError.jsonDecodeError (ls1.length + 1) ∈ stC0.errors
    rw [hδ, ← hstB]
    simp [Nat.add_comm 1 ls1.length]

/-- C9 witness: the truncated-tail clause applied to one complete TriggerCard
line followed by the crash tail. -/
theorem C9_validator_crash_tail_witness :
    validate_triggercard_file ([triggercard_line 1] ++ [crash_tail_fragment]) =
      some { valid_count := 1, has_truncated_line := true,
             truncated_line_content := some crash_tail_fragment,
             errors := [], success := true } := by
  rw [C9_validator_crash_tail.1 [triggercard_line 1] crash_tail_fragment
    (by decide) (by rfl)]
  decide

/-- C10: SPREAD_WIDE appears in the output only when `spread_ticks` is
non-null, strictly positive and strictly greater than `max_spread_ticks`; and
whenever `spread_ticks` is null or at most 0 the output contains
SPREAD_UNAVAILABLE and never SPREAD_WIDE. -/
theorem C10_spread_wide_requires_positive_over_max :
    (∀ i : GateInputs,
       REASON_SPREAD_WIDE ∈ (evaluate_hard_gates i).2.1 →
       ∃ st, i.spread_ticks = some st ∧ st > 0 ∧ st > i.max_spread_ticks) ∧
    (∀ i : GateInputs,
       (i.spread_ticks = none ∨ ∃ st, i.spread_ticks = some st ∧ st ≤ 0) →
       REASON_SPREAD_UNAVAILABLE ∈ (evaluate_hard_gates i).2.1 ∧
       REASON_SPREAD_WIDE ∉ (evaluate_hard_gates i).2.1) := by
  constructor
  · intro i hmem
    have h := (spread_wide_mem_iff i).mp hmem
    cases hsp : i.spread_ticks with
    | none => rw [hsp] at h; simp at h
    | some st =>
        rw [hsp] at h
        simp only [decide_eq_true_eq] at h
        exact ⟨st, rfl, h.1, h.2⟩
  · intro i hcond
    have hwide : (match i.spread_ticks with
        | none => false
        | some st => decide (st > 0 ∧ st > i.max_spread_ticks)) = false := by
      rcases hcond with hn | ⟨st, hst, hle⟩
      · rw [hn]
      · rw [hst]
        simp only [decide_eq_false_iff_not]
        intro hc
        exact absurd hc.1 (not_lt.mpr hle)
    constructor
    · show REASON_SPREAD_UNAVAILABLE ∈ gate_reason_codes i
      refine (spread_unavailable_mem_iff i).mpr ?_
      by_cases hba : i.bid = none ∨ i.ask = none
      · exact Or.inl hba
      · refine Or.inr ⟨hba, ?_⟩
        rcases hcond with hn | ⟨st, hst, hle⟩
        · rw [hn]
        · rw [hst]
          simpa using hle
    · intro hmem
      have h := (spread_wide_mem_iff i).mp hmem
      rw [hwide] at h
      cases h

/-- C10 witness: the null-spread clause applied to the all-fail input vector,
whose `spread_ticks` is null. -/
theorem C10_spread_wide_witness :
    REASON_SPREAD_UNAVAILABLE ∈ (evaluate_hard_gates (all_fail_inputs 0)).2.1 ∧
    REASON_SPREAD_WIDE ∉ (evaluate_hard_gates (all_fail_inputs 0)).2.1 :=
  C10_spread_wide_requires_positive_over_max.2 (all_fail_inputs 0) (Or.inl rfl)
